import Mathlib

/-!
Shallow embedding of the ezmedtech-payment-portal billing code.

The repository is a Next.js app whose server routes proxy a payment
gateway.  This development embeds, as executable Lean definitions, the
pure decision logic of:

* the static pricing catalog and its lookup helpers
  (src/lib/stripe/products.ts),
* the checkout-session builder POST route (price-id resolution and
  payment-method-type selection),
* the session-verification GET route (payment-method classification and
  the per-method success criteria),
* the payment-methods routes (the transform of a gateway payment-method
  object into the list response, and the DELETE guard), and
* the secrets resolver getParameter (cache / env / remote parameter
  store fallback chain).

External gateway state (retrieved sessions, customers, payment methods,
subscription lists, the remote parameter store) is passed in explicitly
as values or functions; network faults are modelled as absent results
where the route treats them as such.  JavaScript string truthiness is
modelled by comparison with the empty string, and nullable values by
Option.
-/

namespace EzMed

/-! ## Catalog (src/lib/stripe/products.ts) -/

/-- Stripe expects amounts in cents (source: formatStripeAmount).  The
catalog only applies it to whole-dollar amounts, so the Math.round of
the source is exact. -/
def formatStripeAmount (amount : Nat) : Nat :=
  amount * 100

/-- TS union `string | number` used for a feature limit. -/
inductive FeatureLimit where
  | str (s : String)
  | num (n : Nat)
deriving DecidableEq, Repr

structure PricingFeature where
  name : String
  description : Option String := none
  included : Bool
  limit : Option FeatureLimit := none
deriving DecidableEq, Repr

structure TierPrice where
  monthly : Nat
  yearly : Option Nat := none
  stripeMonthlyAmount : Nat
  stripeYearlyAmount : Option Nat := none
deriving DecidableEq, Repr

structure StripePriceIds where
  monthly : String
  yearly : Option String := none
deriving DecidableEq, Repr

/-- TS union of number and the literal unlimited for the patient ceiling. -/
inductive MaxPatients where
  | num (n : Nat)
  | unlimited
deriving DecidableEq, Repr

structure PricingTier where
  id : String
  name : String
  description : String
  price : TierPrice
  features : List PricingFeature
  popular : Option Bool := none
  stripePriceId : Option StripePriceIds := none
  stripeProductId : Option String := none
  maxPatients : MaxPatients
  supportLevel : String
  analytics : String
  apiAccess : Bool
  customIntegrations : Bool
  whiteLabel : Bool
deriving DecidableEq, Repr

def basicTier : PricingTier :=
  { id := "basic"
    name := "Basic"
    description := "Perfect for small practices getting started with digital patient management"
    price :=
      { monthly := 29
        yearly := some 24
        stripeMonthlyAmount := formatStripeAmount 29
        stripeYearlyAmount := some (formatStripeAmount 288) }
    maxPatients := .num 100
    supportLevel := "email"
    analytics := "basic"
    apiAccess := false
    customIntegrations := false
    whiteLabel := false
    features :=
      [ { name := "Up to 100 patients"
          description := some "Store and manage up to 100 patient records"
          included := true
          limit := some (.num 100) }
      , { name := "Basic reporting"
          description := some "Essential reports and analytics for your practice"
          included := true }
      , { name := "Email support"
          description := some "Get help via email during business hours"
          included := true }
      , { name := "Secure data storage"
          description := some "HIPAA-compliant cloud storage for all patient data"
          included := true }
      , { name := "Mobile app access"
          description := some "Access your data on iOS and Android devices"
          included := true }
      , { name := "API access"
          description := some "Programmatic access to your data"
          included := false }
      , { name := "Advanced analytics"
          description := some "Detailed insights and custom reports"
          included := false }
      , { name := "Priority support"
          description := some "Fast-track support with shorter response times"
          included := false } ]
    stripePriceId := some { monthly := "price_1RsbiV3knPyAFyt5jhMDdEUI" }
    stripeProductId := some "prod_basic" }

def professionalTier : PricingTier :=
  { id := "professional"
    name := "Professional"
    description := "Ideal for growing practices that need advanced features and analytics"
    price :=
      { monthly := 79
        yearly := some 65
        stripeMonthlyAmount := formatStripeAmount 79
        stripeYearlyAmount := some (formatStripeAmount 780) }
    maxPatients := .num 1000
    supportLevel := "priority"
    analytics := "advanced"
    apiAccess := true
    customIntegrations := false
    whiteLabel := false
    popular := some true
    features :=
      [ { name := "Up to 1,000 patients"
          description := some "Store and manage up to 1,000 patient records"
          included := true
          limit := some (.num 1000) }
      , { name := "Advanced analytics"
          description := some "Detailed insights, custom reports, and data visualization"
          included := true }
      , { name := "Priority support"
          description := some "Fast-track support with 24-hour response time"
          included := true }
      , { name := "API access"
          description := some "Full REST API access for integrations"
          included := true }
      , { name := "Secure data storage"
          description := some "HIPAA-compliant cloud storage for all patient data"
          included := true }
      , { name := "Mobile app access"
          description := some "Access your data on iOS and Android devices"
          included := true }
      , { name := "Basic reporting"
          description := some "All basic reports included"
          included := true }
      , { name := "Custom integrations"
          description := some "Integrate with your existing practice management software"
          included := false }
      , { name := "White-label options"
          description := some "Customize the platform with your branding"
          included := false } ]
    stripePriceId := some { monthly := "price_1Rsbj73knPyAFyt5qcAlh8Lw" }
    stripeProductId := some "prod_professional" }

def enterpriseTier : PricingTier :=
  { id := "enterprise"
    name := "Enterprise"
    description := "Complete solution for large practices and healthcare organizations"
    price :=
      { monthly := 199
        yearly := some 165
        stripeMonthlyAmount := formatStripeAmount 199
        stripeYearlyAmount := some (formatStripeAmount 1980) }
    maxPatients := .unlimited
    supportLevel := "24/7"
    analytics := "custom"
    apiAccess := true
    customIntegrations := true
    whiteLabel := true
    features :=
      [ { name := "Unlimited patients"
          description := some "No limits on the number of patient records"
          included := true
          limit := some (.str "unlimited") }
      , { name := "Custom integrations"
          description := some "Seamlessly integrate with your existing systems"
          included := true }
      , { name := "24/7 support"
          description := some "Round-the-clock support with dedicated account manager"
          included := true }
      , { name := "White-label options"
          description := some "Fully customize the platform with your branding"
          included := true }
      , { name := "Advanced analytics"
          description := some "Custom dashboards and enterprise-grade reporting"
          included := true }
      , { name := "API access"
          description := some "Full REST API access with higher rate limits"
          included := true }
      , { name := "Secure data storage"
          description := some "HIPAA-compliant cloud storage with advanced security"
          included := true }
      , { name := "Mobile app access"
          description := some "White-labeled mobile apps for your organization"
          included := true }
      , { name := "Basic reporting"
          description := some "All basic and advanced reports included"
          included := true }
      , { name := "SLA guarantee"
          description := some "99.9% uptime guarantee with service level agreement"
          included := true }
      , { name := "Data migration"
          description := some "Free data migration from your existing systems"
          included := true } ]
    stripePriceId := some { monthly := "price_1RsbjW3knPyAFyt5uFXrBBw1" }
    stripeProductId := some "prod_enterprise" }

def PRICING_TIERS : List PricingTier :=
  [basicTier, professionalTier, enterpriseTier]

def getPricingTierById (id : String) : Option PricingTier :=
  PRICING_TIERS.find? (fun tier => tier.id == id)

def getPricingTierByStripePriceId (priceId : String) : Option PricingTier :=
  PRICING_TIERS.find? (fun tier =>
    tier.stripePriceId.map StripePriceIds.monthly == some priceId ||
    tier.stripePriceId.bind StripePriceIds.yearly == some priceId)

/-- The billing cycles the catalog knows about. -/
inductive BillingCycle where
  | monthly
  | yearly
deriving DecidableEq, Repr

/-- The external price reference a tier carries for a billing cycle, if
any (projection of the optional stripePriceId record). -/
def priceRefFor (tier : PricingTier) (cycle : BillingCycle) : Option String :=
  match tier.stripePriceId, cycle with
  | some ids, .monthly => some ids.monthly
  | some ids, .yearly => ids.yearly
  | none, _ => none

/-! ## Checkout session builder (POST route, src/unnamed/part_002) -/

/-- The literal-prefix id-shape checks (`String.startsWith` in the
source), stated on the character lists so concrete instances reduce. -/
def strStartsWith (s p : String) : Bool :=
  p.data.isPrefixOf s.data

/-- JavaScript truthiness of an optional string: defined and nonempty. -/
def truthyOpt (o : Option String) : Bool :=
  match o with
  | some s => s ≠ ""
  | none => false

/-- JavaScript `a || d` on an optional string. -/
def jsOr (o : Option String) (d : String) : String :=
  match o with
  | some s => if s = "" then d else s
  | none => d

structure CheckoutRequestBody where
  priceId : String
  customerId : Option String := none
  customerEmail : Option String := none
  payment_method_type : Option String := none
  /-- Read through an untyped cast in the source (`(body as any).billingCycle`). -/
  billingCycle : Option String := none
deriving DecidableEq, Repr

/-- Outcome of resolving the request priceId (tier id or raw price ref)
to the Stripe price id used in the line item of the session. -/
inductive PriceResolution where
  | ok (priceId : String)
  | httpError (status : Nat) (message : String)
deriving DecidableEq, Repr

/-- The tier-to-price-id mapping step of the checkout POST route. -/
def resolveCheckoutPriceId (priceId : String) (billingCycle : String) : PriceResolution :=
  if strStartsWith priceId "price_" then .ok priceId
  else
    match getPricingTierById priceId with
    | none => .httpError 400 ("Invalid pricing tier: " ++ priceId)
    | some tier =>
      match tier.stripePriceId with
      | none => .httpError 500 ("Stripe price ID not configured for tier: " ++ priceId)
      | some ids =>
        if billingCycle = "yearly" ∧ truthyOpt ids.yearly then
          .ok (jsOr ids.yearly "")
        else if ids.monthly ≠ "" then
          .ok ids.monthly
        else
          .httpError 500
            ("Stripe price ID not available for " ++ billingCycle ++
              " billing on tier: " ++ priceId)

/-- Map payment method preferences to Stripe payment method types
(source: getPaymentMethodTypes inside the POST handler). -/
def getPaymentMethodTypes (type : String) : List String :=
  match type with
  | "ach" => ["us_bank_account"]
  | "card" => ["card"]
  | _ => ["card", "us_bank_account"]

/-- The slice of Stripe.Checkout.SessionCreateParams that the route
computes from its input (URLs, metadata timestamps and the fixed
boilerplate flags are omitted as they carry no decision logic). -/
structure SessionCreateParams where
  mode : String
  payment_method_types : List String
  linePriceId : String
  payment_method_collection : Option String := none
  usBankVerificationMethod : Option String := none
  customer : Option String := none
  customer_email : Option String := none
deriving DecidableEq, Repr

/-- The pure core of the checkout POST handler: request body to either
an HTTP error or the session-creation parameters sent to the gateway. -/
def buildCheckoutSessionParams (body : CheckoutRequestBody) :
    Except (Nat × String) SessionCreateParams :=
  if body.priceId = "" then .error (400, "priceId is required")
  else
    let billingCycle := jsOr body.billingCycle "monthly"
    match resolveCheckoutPriceId body.priceId billingCycle with
    | .httpError status msg => .error (status, msg)
    | .ok actualPriceId =>
      if truthyOpt body.payment_method_type ∧
          ¬ (["card", "ach", "both"].contains (jsOr body.payment_method_type "")) then
        .error (400, "payment_method_type must be card, ach, or both")
      else
        let paymentMethodType := jsOr body.payment_method_type "both"
        let paymentMethodTypes := getPaymentMethodTypes paymentMethodType
        let isACHEnabled := paymentMethodType = "ach" ∨ paymentMethodType = "both"
        .ok
          { mode := "subscription"
            payment_method_types := paymentMethodTypes
            linePriceId := actualPriceId
            payment_method_collection := if isACHEnabled then some "if_required" else none
            usBankVerificationMethod := if isACHEnabled then some "automatic" else none
            customer := if truthyOpt body.customerId then body.customerId else none
            customer_email :=
              if truthyOpt body.customerId then none
              else if truthyOpt body.customerEmail then body.customerEmail
              else none }

/-! ## Session verifier (GET route, src/app/api/stripe/verify-session/route.ts) -/

/-- A Stripe field that is either an unexpanded id string or an
expanded object (the `string | T` unions of the SDK). -/
inductive Expandable (α : Type) where
  | ref (id : String)
  | obj (value : α)
deriving DecidableEq, Repr

/-- The `{ id, type, object }` slice of an expanded payment method that
the verifier reads. -/
structure PaymentMethodObj where
  id : String
  type : String
  object : String
deriving DecidableEq, Repr

/-- A payment or setup intent, as the verifier sees it: only its
(possibly unexpanded, possibly absent) payment method is read. -/
structure IntentObj where
  payment_method : Option (Expandable PaymentMethodObj) := none
deriving DecidableEq, Repr

structure SubItemPrice where
  id : String
  unit_amount : Option Int := none
  currency : String
  recurringInterval : Option String := none
deriving DecidableEq, Repr

structure SubItem where
  price : SubItemPrice
deriving DecidableEq, Repr

structure SubscriptionObj where
  id : String
  status : String
  items : List SubItem
  current_period_end : Option Int := none
deriving DecidableEq, Repr

structure CustomerObj where
  email : Option String := none
  name : Option String := none
deriving DecidableEq, Repr

/-- A retrieved checkout session with the expansions the route asks
for already applied (subscription and customer come back expanded, the
intents may still be id strings if the gateway did not expand them). -/
structure CheckoutSessionObj where
  status : Option String := none
  payment_status : String
  subscription : Option SubscriptionObj := none
  customer : Option CustomerObj := none
  customer_email : Option String := none
  payment_intent : Option (Expandable IntentObj) := none
  setup_intent : Option (Expandable IntentObj) := none
deriving DecidableEq, Repr

/-- Payment-method classification (route lines 117-154): the expanded
the payment-method object of the expanded payment intent first; if
that yields nothing, that of the expanded setup intent. -/
def detectPaymentMethod (session : CheckoutSessionObj) : Option PaymentMethodObj :=
  let fromPaymentIntent :=
    match session.payment_intent with
    | some (.obj intent) =>
      match intent.payment_method with
      | some (.obj pm) => some pm
      | _ => none
    | _ => none
  match fromPaymentIntent with
  | some pm => some pm
  | none =>
    match session.setup_intent with
    | some (.obj intent) =>
      match intent.payment_method with
      | some (.obj pm) => some pm
      | _ => none
    | _ => none

/-- The next-billing-date computation, with the impure "now + 1 month"
fallback kept symbolic. -/
inductive BillingDate where
  | periodEnd (epochSeconds : Int)
  | oneMonthFromNow
deriving DecidableEq, Repr

/-- The success payload of the verifier (amount kept in minor units;
the source divides by 100 only for display). -/
structure VerifiedSubscription where
  id : String
  status : String
  planName : String
  amountCents : Int
  currency : String
  interval : String
  nextBillingDate : BillingDate
  customerEmail : String
  customerName : Option String := none
deriving DecidableEq, Repr

inductive VerifyOutcome where
  | failure (status : Nat) (error : String) (details : Option String)
  | success (subscription : VerifiedSubscription)
      (paymentMethod : Option PaymentMethodObj)
      (paymentMethodType : Option String)
      (verificationMethod : String)
deriving DecidableEq, Repr

/-- Whether the route answered 200 with success true. -/
def VerifyOutcome.isSuccess : VerifyOutcome → Bool
  | .success _ _ _ _ => true
  | .failure _ _ _ => false

def VerifyOutcome.verificationMethodOf : VerifyOutcome → Option String
  | .success _ _ _ m => some m
  | .failure _ _ _ => none

/-- Steps 7-8 of the route, shared by both verification branches:
derived display fields and the success response. -/
def finishVerification (session : CheckoutSessionObj) (subscription : SubscriptionObj)
    (paymentMethod : Option PaymentMethodObj) (paymentMethodType : Option String) :
    VerifyOutcome :=
  match subscription.items with
  | [] => .failure 400 "No subscription items found" none
  | priceItem :: _ =>
    let price := priceItem.price
    let tier := getPricingTierByStripePriceId price.id
    let planName := match tier with | some t => t.name | none => "Unknown Plan"
    let customerEmail :=
      jsOr (session.customer.bind CustomerObj.email) (jsOr session.customer_email "")
    let customerName :=
      match session.customer with
      | some c => if truthyOpt c.name then c.name else none
      | none => none
    let nextBillingDate :=
      match subscription.current_period_end with
      | some t => if 0 < t then BillingDate.periodEnd t else BillingDate.oneMonthFromNow
      | none => BillingDate.oneMonthFromNow
    .success
      { id := subscription.id
        status := subscription.status
        planName := planName
        amountCents := match price.unit_amount with | some a => a | none => 0
        currency := price.currency
        interval := jsOr price.recurringInterval "month"
        nextBillingDate := nextBillingDate
        customerEmail := customerEmail
        customerName := customerName }
      paymentMethod
      paymentMethodType
      (if paymentMethodType = some "us_bank_account" then "ach_subscription"
       else "card_payment")

/-- Steps 3-8 of the route, on the retrieved session. -/
def verifyRetrievedSession (session : CheckoutSessionObj) : VerifyOutcome :=
  if session.status ≠ some "complete" then
    .failure 400 "Session not completed"
      (some ("Session status: " ++ jsOr session.status "null"))
  else
    match session.subscription with
    | none => .failure 400 "No subscription found for this session" none
    | some subscription =>
      let paymentMethod := detectPaymentMethod session
      let paymentMethodType := paymentMethod.map PaymentMethodObj.type
      if paymentMethodType = some "us_bank_account" then
        if ¬ (["active", "trialing", "past_due"].contains subscription.status) then
          .failure 400 "ACH subscription not properly activated"
            (some ("Subscription status: " ++ subscription.status))
        else finishVerification session subscription paymentMethod paymentMethodType
      else
        if session.payment_status ≠ "paid" then
          .failure 400 "Payment not completed"
            (some ("Payment status: " ++ session.payment_status))
        else finishVerification session subscription paymentMethod paymentMethodType

/-- Result of the gateway retrieve call: the session, the
"No such checkout.session" invalid-request error, or another fault. -/
inductive SessionRetrieval where
  | found (session : CheckoutSessionObj)
  | noSuchSession
  | fault (message : String)
deriving DecidableEq, Repr

/-- The whole GET handler: input checks, retrieval, then the
verification state machine; the catch block maps the gateway error
"No such checkout.session" to 404 and other faults to 500. -/
def verifySession (sessionId : String) (retrieve : String → SessionRetrieval) :
    VerifyOutcome :=
  if sessionId = "" then .failure 400 "Missing session_id parameter" none
  else if ¬ strStartsWith sessionId "cs_" then .failure 400 "Invalid session_id format" none
  else
    match retrieve sessionId with
    | .found session => verifyRetrievedSession session
    | .noSuchSession => .failure 404 "Session not found or expired" none
    | .fault msg => .failure 500 "Failed to verify session" (some msg)

/-! ## Payment-method management (src/app/api/stripe/payment-methods/route.ts) -/

structure CardDetails where
  brand : String
  last4 : String
  exp_month : Nat
  exp_year : Nat
  funding : String
  country : Option String := none
deriving DecidableEq, Repr

structure BankAccountDetails where
  account_holder_type : Option String := none
  account_type : Option String := none
  bank_name : Option String := none
  last4 : Option String := none
  routing_number : Option String := none
deriving DecidableEq, Repr

structure BillingAddress where
  city : Option String := none
  country : Option String := none
  line1 : Option String := none
  line2 : Option String := none
  postal_code : Option String := none
  state : Option String := none
deriving DecidableEq, Repr

structure BillingDetails where
  name : Option String := none
  email : Option String := none
  phone : Option String := none
  address : Option BillingAddress := none
deriving DecidableEq, Repr

/-- A Stripe payment method as the routes read it. -/
structure StripePaymentMethod where
  id : String
  type : String
  created : Nat
  customer : Option String := none
  card : Option CardDetails := none
  us_bank_account : Option BankAccountDetails := none
  billing_details : BillingDetails := {}
deriving DecidableEq, Repr

structure CardResponse where
  brand : String
  last4 : String
  exp_month : Nat
  exp_year : Nat
  funding : String
  country : String
deriving DecidableEq, Repr

structure BankAccountResponse where
  account_holder_type : String
  account_type : String
  bank_name : String
  last4 : String
  routing_number : String
  verification_status : String
deriving DecidableEq, Repr

structure BillingAddressResponse where
  city : Option String := none
  country : Option String := none
  line1 : Option String := none
  line2 : Option String := none
  postal_code : Option String := none
  state : Option String := none
deriving DecidableEq, Repr

structure BillingDetailsResponse where
  name : Option String := none
  email : Option String := none
  phone : Option String := none
  address : BillingAddressResponse := {}
deriving DecidableEq, Repr

structure PaymentMethodResponse where
  id : String
  type : String
  created : Nat
  is_default : Bool
  card : Option CardResponse := none
  us_bank_account : Option BankAccountResponse := none
  billing_details : BillingDetailsResponse := {}
deriving DecidableEq, Repr

/-- Map Stripe verification status to our ACH status (mapVerificationStatus,
nested inside transformPaymentMethod in the source). -/
def mapVerificationStatus (status : String) : String :=
  match status with
  | "verified" => "verified"
  | "pending" => "pending"
  | "unavailable" => "failed"
  | "unverified" => "requires_action"
  | _ => "pending"

/-- Transform Stripe payment method to our API format (the source
invokes mapVerificationStatus on the hard-coded literal "verified"
rather than on the actual status of the payment method). -/
def transformPaymentMethod (stripePaymentMethod : StripePaymentMethod)
    (defaultPaymentMethodId : Option String) : PaymentMethodResponse :=
  let isDefault :=
    match defaultPaymentMethodId with
    | some d => stripePaymentMethod.id = d
    | none => false
  let addr := stripePaymentMethod.billing_details.address
  let baseMethod : PaymentMethodResponse :=
    { id := stripePaymentMethod.id
      type := stripePaymentMethod.type
      created := stripePaymentMethod.created
      is_default := isDefault
      billing_details :=
        { name := stripePaymentMethod.billing_details.name
          email := stripePaymentMethod.billing_details.email
          phone := stripePaymentMethod.billing_details.phone
          address :=
            { city := addr.bind BillingAddress.city
              country := addr.bind BillingAddress.country
              line1 := addr.bind BillingAddress.line1
              line2 := addr.bind BillingAddress.line2
              postal_code := addr.bind BillingAddress.postal_code
              state := addr.bind BillingAddress.state } } }
  let withCard :=
    match stripePaymentMethod.card with
    | some c =>
      if stripePaymentMethod.type = "card" then
        { baseMethod with
            card := some
              { brand := c.brand
                last4 := c.last4
                exp_month := c.exp_month
                exp_year := c.exp_year
                funding := c.funding
                country := jsOr c.country "" } }
      else baseMethod
    | none => baseMethod
  match stripePaymentMethod.us_bank_account with
  | some b =>
    if stripePaymentMethod.type = "us_bank_account" then
      { withCard with
          us_bank_account := some
            { account_holder_type := jsOr b.account_holder_type "individual"
              account_type := jsOr b.account_type "checking"
              bank_name := jsOr b.bank_name ""
              last4 := jsOr b.last4 ""
              routing_number := jsOr b.routing_number ""
              verification_status := mapVerificationStatus "verified" } }
    else withCard
  | none => withCard

/-- The transformation the GET route applies to the fetched
payment-method list (each entry annotated against the default of the
customer). -/
def transformPaymentMethodList (paymentMethods : List StripePaymentMethod)
    (defaultPaymentMethodId : Option String) : List PaymentMethodResponse :=
  paymentMethods.map (fun pm => transformPaymentMethod pm defaultPaymentMethodId)

def validateCustomerId (customer_id : String) : Bool :=
  strStartsWith customer_id "cus_"

def validatePaymentMethodId (payment_method_id : String) : Bool :=
  strStartsWith payment_method_id "pm_"

/-- The customer fields the DELETE route reads. -/
structure StripeCustomer where
  deleted : Bool := false
  default_payment_method : Option String := none
deriving DecidableEq, Repr

/-- The gateway state the DELETE route consults.  Retrieval functions
return none where the call in the source throws (entity not found). -/
structure PaymentGateway where
  retrieveCustomer : String → Option StripeCustomer
  retrievePaymentMethod : String → Option StripePaymentMethod
  listActiveSubscriptionIds : String → List String
  listCardIds : String → List String
  listBankIds : String → List String

structure RemovePaymentMethodRequest where
  customer_id : String
  payment_method_id : String
deriving DecidableEq, Repr

inductive DeleteOutcome where
  | failure (status : Nat) (error : String)
  | removed (payment_method_id : String) (customer_id : String) (clearedDefault : Bool)
deriving DecidableEq, Repr

/-- The decision logic of the DELETE handler (the detach call is
assumed to succeed; its gateway-fault catch branches carry no
decisions). -/
def deletePaymentMethod (gw : PaymentGateway) (body : RemovePaymentMethodRequest) :
    DeleteOutcome :=
  if body.customer_id = "" ∨ body.payment_method_id = "" then
    .failure 400 "Missing required fields: customer_id and payment_method_id"
  else if ¬ validateCustomerId body.customer_id then
    .failure 400 "Invalid customer_id format. Must start with cus_"
  else if ¬ validatePaymentMethodId body.payment_method_id then
    .failure 400 "Invalid payment_method_id format. Must start with pm_"
  else
    match gw.retrieveCustomer body.customer_id with
    | none => .failure 404 "Customer not found"
    | some customer =>
      if customer.deleted then .failure 404 "Customer has been deleted"
      else
        let isDefaultPaymentMethod :=
          decide (customer.default_payment_method = some body.payment_method_id)
        match gw.retrievePaymentMethod body.payment_method_id with
        | none => .failure 404 "Payment method not found"
        | some paymentMethod =>
          if paymentMethod.customer ≠ some body.customer_id then
            .failure 403 "Payment method does not belong to the specified customer"
          else
            let subscriptions := gw.listActiveSubscriptionIds body.customer_id
            let totalPaymentMethods :=
              (gw.listCardIds body.customer_id).length +
                (gw.listBankIds body.customer_id).length
            if subscriptions.length > 0 ∧ totalPaymentMethods = 1 then
              .failure 400
                "Cannot remove the only payment method for a customer with active subscriptions"
            else
              .removed body.payment_method_id body.customer_id isDefaultPaymentMethod

/-! ## Secrets resolver (src/lib/aws/secrets.ts, getParameter) -/

/-- The process environment and the remote parameter store.  `vars`
yields "" for an unset variable (both are falsy in the source); `store`
is keyed by the full namespaced parameter path and yields none both
when the fetch throws and when the parameter has no value — the two
cases the source collapses into a null result. -/
structure SecretsWorld where
  vars : String → String
  store : String → Option String

/-- The in-memory parameter cache, one entry per key (Map semantics). -/
def cacheLookup (cache : List (String × String)) (k : String) : Option String :=
  (cache.find? (fun p => p.1 == k)).map Prod.snd

def cacheSet (cache : List (String × String)) (k v : String) : List (String × String) :=
  (k, v) :: cache.filter (fun p => p.1 ≠ k)

/-- One call to getParameter: the result, the cache afterwards, and how
many remote parameter-store round trips the call performed. -/
def getParameter (world : SecretsWorld) (cache : List (String × String))
    (parameterName : String) : Option String × List (String × String) × Nat :=
  let cached := cacheLookup cache parameterName
  if truthyOpt cached then (cached, cache, 0)
  else
    let envValue := world.vars parameterName
    if envValue ≠ "" then (some envValue, cacheSet cache parameterName envValue, 0)
    else
      let isLocalDevelopment :=
        world.vars "AMPLIFY_ENV" = "" ∧ world.vars "NODE_ENV" = "development"
      if isLocalDevelopment then (none, cache, 0)
      else
        let environment :=
          if world.vars "AMPLIFY_ENV" = "" then "staging" else world.vars "AMPLIFY_ENV"
        let fullParameterName :=
          "/amplify/ezmedtech-payment-portal/" ++ environment ++ "/" ++ parameterName
        match world.store fullParameterName with
        | some value =>
          if value ≠ "" then (some value, cacheSet cache parameterName value, 1)
          else (none, cache, 1)
        | none => (none, cache, 1)

/-- Two successive calls for the same name, threading the cache;
returns both results and the total number of remote round trips. -/
def getParameterTwice (world : SecretsWorld) (cache : List (String × String))
    (parameterName : String) : Option String × Option String × Nat :=
  let first := getParameter world cache parameterName
  let second := getParameter world first.2.1 parameterName
  (first.1, second.1, first.2.2 + second.2.2)

/-! ## Concrete instances used to exercise the embedding -/

/-- A subscription line item carrying the monthly price of the Basic tier. -/
def sampleItem : SubItem :=
  { price :=
      { id := "price_1RsbiV3knPyAFyt5jhMDdEUI"
        unit_amount := some 2900
        currency := "usd"
        recurringInterval := some "month" } }

/-- A completed bank-transfer session whose subscription is active but
carries no line items. -/
def achEmptyItemsSession : CheckoutSessionObj :=
  { status := some "complete"
    payment_status := "unpaid"
    subscription := some { id := "sub_ach_1", status := "active", items := [] }
    setup_intent := some (.obj { payment_method := some (.obj
      { id := "pm_ach_1", type := "us_bank_account", object := "payment_method" }) }) }

/-- A completed bank-transfer session, still unpaid, with an active
subscription holding one line item. -/
def achUnpaidActiveSession : CheckoutSessionObj :=
  { status := some "complete"
    payment_status := "unpaid"
    subscription := some { id := "sub_ach_2", status := "active", items := [sampleItem] }
    setup_intent := some (.obj { payment_method := some (.obj
      { id := "pm_ach_2", type := "us_bank_account", object := "payment_method" }) }) }

/-- A completed, paid card session whose active subscription carries no
line items. -/
def cardEmptyItemsSession : CheckoutSessionObj :=
  { status := some "complete"
    payment_status := "paid"
    subscription := some { id := "sub_card_1", status := "active", items := [] }
    payment_intent := some (.obj { payment_method := some (.obj
      { id := "pm_card_1", type := "card", object := "payment_method" }) }) }

/-- A completed, paid card session with one line item. -/
def cardPaidSession : CheckoutSessionObj :=
  { status := some "complete"
    payment_status := "paid"
    subscription := some { id := "sub_card_2", status := "active", items := [sampleItem] }
    payment_intent := some (.obj { payment_method := some (.obj
      { id := "pm_card_2", type := "card", object := "payment_method" }) }) }

/-- A completed, paid session whose intents never expose a
payment-method object (the payment intent stayed an id string). -/
def noPmObjectSession : CheckoutSessionObj :=
  { status := some "complete"
    payment_status := "paid"
    subscription := some { id := "sub_nopm_1", status := "active", items := [sampleItem] }
    payment_intent := some (.ref "pi_nopm_1") }

/-- A checkout request asking for bank-transfer only. -/
def achBodyW : CheckoutRequestBody :=
  { priceId := "price_w", payment_method_type := some "ach" }

/-- The session parameters the builder produces for `achBodyW`. -/
def achParamsW : SessionCreateParams :=
  { mode := "subscription"
    payment_method_types := ["us_bank_account"]
    linePriceId := "price_w"
    payment_method_collection := some "if_required"
    usBankVerificationMethod := some "automatic" }

/-- A gateway holding one customer with a single card on file and no
active subscription. -/
def gatewayW : PaymentGateway :=
  { retrieveCustomer := fun id =>
      if id = "cus_w" then some { deleted := false, default_payment_method := some "pm_w" }
      else none
    retrievePaymentMethod := fun id =>
      if id = "pm_w" then
        some { id := "pm_w", type := "card", created := 1700000000, customer := some "cus_w" }
      else none
    listActiveSubscriptionIds := fun _ => []
    listCardIds := fun id => if id = "cus_w" then ["pm_w"] else []
    listBankIds := fun _ => [] }

def removeBodyW : RemovePaymentMethodRequest :=
  { customer_id := "cus_w", payment_method_id := "pm_w" }

/-- A stored bank-account payment method whose gateway-side data is
arbitrary. -/
def bankPmW : StripePaymentMethod :=
  { id := "pm_bank_w"
    type := "us_bank_account"
    created := 1700000001
    customer := some "cus_w"
    us_bank_account := some
      { account_holder_type := some "individual"
        account_type := some "checking"
        bank_name := some "Test Bank"
        last4 := some "6789"
        routing_number := some "110000000" } }

/-- The transformed bank payment method produced for the C8 witness. -/
def bankRespW : BankAccountResponse :=
  { account_holder_type := "individual"
    account_type := "checking"
    bank_name := "Test Bank"
    last4 := "6789"
    routing_number := "110000000"
    verification_status := "verified" }

/-- A deployment where the remote store never yields the parameter. -/
def failWorld : SecretsWorld :=
  { vars := fun n => if n = "AMPLIFY_ENV" then "prod" else ""
    store := fun _ => none }

/-- A deployment where the remote store holds the secret under the
namespaced path. -/
def okWorld : SecretsWorld :=
  { vars := fun n => if n = "AMPLIFY_ENV" then "prod" else ""
    store := fun p =>
      if p = "/amplify/ezmedtech-payment-portal/prod/STRIPE_SECRET_KEY" then
        some "sk_test_123"
      else none }

/-! ## Theorems -/

/-- The builder copies getPaymentMethodTypes of the effective
preference into the session parameters. -/
lemma buildCheckout_ok_payment_method_types (body : CheckoutRequestBody)
    (params : SessionCreateParams) (h : buildCheckoutSessionParams body = .ok params) :
    params.payment_method_types = getPaymentMethodTypes (jsOr body.payment_method_type "both") := by
  simp only [buildCheckoutSessionParams] at h
  split at h
  · exact absurd h (by simp)
  · split at h
    · exact absurd h (by simp)
    · split at h
      · exact absurd h (by simp)
      · injection h with h
        subst h
        rfl

/-- C4: the payment preference maps to the offered payment-method types
as ach to bank-transfer only, card to card only, and both/omitted to
both; an ach session never offers card and vice versa. -/
theorem checkout_payment_method_types_mapping (body : CheckoutRequestBody)
    (params : SessionCreateParams) (h : buildCheckoutSessionParams body = .ok params) :
    (body.payment_method_type = some "ach" →
      params.payment_method_types = ["us_bank_account"] ∧
        "card" ∉ params.payment_method_types) ∧
    (body.payment_method_type = some "card" →
      params.payment_method_types = ["card"] ∧
        "us_bank_account" ∉ params.payment_method_types) ∧
    ((body.payment_method_type = some "both" ∨ body.payment_method_type = none) →
      params.payment_method_types = ["card", "us_bank_account"]) := by
  have hpt := buildCheckout_ok_payment_method_types body params h
  refine ⟨fun hach => ?_, fun hcard => ?_, fun hboth => ?_⟩
  · rw [hach] at hpt
    simp only [jsOr, getPaymentMethodTypes] at hpt
    rw [if_neg (by decide)] at hpt
    rw [hpt]
    exact ⟨rfl, by decide⟩
  · rw [hcard] at hpt
    simp only [jsOr, getPaymentMethodTypes] at hpt
    rw [if_neg (by decide)] at hpt
    rw [hpt]
    exact ⟨rfl, by decide⟩
  · rcases hboth with hsome | hnone
    · rw [hsome] at hpt
      simp only [jsOr, getPaymentMethodTypes] at hpt
      rw [if_neg (by decide)] at hpt
      exact hpt
    · rw [hnone] at hpt
      exact hpt

/-- Witness for C4 at a concrete ach request. -/
theorem checkout_payment_method_types_mapping_witness :
    achParamsW.payment_method_types = ["us_bank_account"] ∧
      "card" ∉ achParamsW.payment_method_types :=
  (checkout_payment_method_types_mapping achBodyW achParamsW rfl).1 rfl

/-- C3 counterexample: the Basic tier has no yearly price reference,
yet a yearly checkout request for it is served with the monthly price
reference of that tier instead of being rejected. -/
theorem checkout_yearly_fallback_counterexample :
    priceRefFor basicTier .yearly = none ∧
    basicTier ∈ PRICING_TIERS ∧
    resolveCheckoutPriceId "basic" "yearly" =
      .ok "price_1RsbiV3knPyAFyt5jhMDdEUI" ∧
    priceRefFor basicTier .monthly = some "price_1RsbiV3knPyAFyt5jhMDdEUI" := by
  refine ⟨rfl, by decide, by decide, rfl⟩

/-- C3 amended: an unknown tier is rejected with 400; a tier with no
price-reference record is rejected with 500; but a tier whose reference
for the requested yearly cycle is absent is not rejected: the builder
falls back to the monthly reference. -/
theorem checkout_price_resolution_amended (id cycle : String)
    (hn : strStartsWith id "price_" = false) :
    (getPricingTierById id = none →
      resolveCheckoutPriceId id cycle = .httpError 400 ("Invalid pricing tier: " ++ id)) ∧
    (∀ tier, getPricingTierById id = some tier → tier.stripePriceId = none →
      resolveCheckoutPriceId id cycle =
        .httpError 500 ("Stripe price ID not configured for tier: " ++ id)) ∧
    (∀ tier ids, getPricingTierById id = some tier → tier.stripePriceId = some ids →
      ids.yearly = none → ids.monthly ≠ "" →
      resolveCheckoutPriceId id cycle = .ok ids.monthly) := by
  refine ⟨fun hnone => ?_, fun tier htier hids => ?_, fun tier ids htier hids hy hm => ?_⟩
  · simp [resolveCheckoutPriceId, hn, hnone]
  · simp [resolveCheckoutPriceId, hn, htier, hids]
  · simp [resolveCheckoutPriceId, hn, htier, hids, hy, truthyOpt, hm]

/-- Witness for the amended C3 at the Basic tier and a yearly request. -/
theorem checkout_price_resolution_amended_witness :
    resolveCheckoutPriceId "basic" "yearly" = .ok "price_1RsbiV3knPyAFyt5jhMDdEUI" :=
  (checkout_price_resolution_amended "basic" "yearly" (by decide)).2.2 basicTier
    { monthly := "price_1RsbiV3knPyAFyt5jhMDdEUI" } (by decide) (by decide) rfl (by decide)

/-- C5: for every catalog tier and billing cycle for which the tier
carries a price reference, looking that reference up returns exactly
that tier. -/
theorem catalog_price_ref_lookup_left_inverse (tier : PricingTier) (cycle : BillingCycle)
    (pid : String) (htier : tier ∈ PRICING_TIERS) (href : priceRefFor tier cycle = some pid) :
    getPricingTierByStripePriceId pid = some tier := by
  simp only [PRICING_TIERS, List.mem_cons, List.not_mem_nil, or_false] at htier
  rcases htier with rfl | rfl | rfl <;> cases cycle <;>
    simp only [priceRefFor, basicTier, professionalTier, enterpriseTier,
      Option.some.injEq] at href <;>
    first
    | exact Option.noConfusion href
    | (subst href; decide)

/-- Witness for C5 at the monthly price reference of the Basic tier. -/
theorem catalog_price_ref_lookup_left_inverse_witness :
    getPricingTierByStripePriceId "price_1RsbiV3knPyAFyt5jhMDdEUI" = some basicTier :=
  catalog_price_ref_lookup_left_inverse basicTier .monthly
    "price_1RsbiV3knPyAFyt5jhMDdEUI" (by decide) rfl

/-- A well-shaped session id that the gateway resolves to a session
makes the route run the verification state machine on that session. -/
lemma verifySession_found (sid : String) (retrieve : String → SessionRetrieval)
    (session : CheckoutSessionObj) (hsid : strStartsWith sid "cs_" = true)
    (hret : retrieve sid = .found session) :
    verifySession sid retrieve = verifyRetrievedSession session := by
  have hne : sid ≠ "" := by
    intro h
    rw [h] at hsid
    exact absurd hsid (by decide)
  simp [verifySession, hne, hsid, hret]

/-- C1 amended: on a completed bank-transfer session, verification
succeeds exactly when the subscription status is active, trialing or
past_due AND the subscription carries at least one line item; the
payment status of the session itself is never consulted, and a status outside
that set yields HTTP 400. -/
theorem verify_ach_subscription_criteria (sid : String)
    (retrieve : String → SessionRetrieval) (session : CheckoutSessionObj)
    (subscription : SubscriptionObj)
    (hsid : strStartsWith sid "cs_" = true)
    (hret : retrieve sid = .found session)
    (hcomplete : session.status = some "complete")
    (hsub : session.subscription = some subscription)
    (hach : (detectPaymentMethod session).map PaymentMethodObj.type = some "us_bank_account") :
    (subscription.status ∈ (["active", "trialing", "past_due"] : List String) →
      subscription.items ≠ [] →
      (verifySession sid retrieve).isSuccess = true ∧
        (verifySession sid retrieve).verificationMethodOf = some "ach_subscription") ∧
    (subscription.status ∉ (["active", "trialing", "past_due"] : List String) →
      verifySession sid retrieve =
        .failure 400 "ACH subscription not properly activated"
          (some ("Subscription status: " ++ subscription.status))) := by
  rw [verifySession_found sid retrieve session hsid hret]
  constructor
  · intro hstat hitems
    simp only [List.mem_cons, List.not_mem_nil, or_false] at hstat
    cases hitem : subscription.items with
    | nil => exact absurd hitem hitems
    | cons it rest =>
      rcases hstat with h | h | h <;>
        simp [verifyRetrievedSession, finishVerification, hcomplete, hsub, hach, h, hitem,
          VerifyOutcome.isSuccess, VerifyOutcome.verificationMethodOf]
  · intro hstat
    simp only [List.mem_cons, List.not_mem_nil, or_false, not_or] at hstat
    obtain ⟨h1, h2, h3⟩ := hstat
    simp [verifyRetrievedSession, hcomplete, hsub, hach, h1, h2, h3]

/-- Witness for the amended C1: an unpaid but active bank-transfer
session with one line item verifies via the ach_subscription path. -/
theorem verify_ach_subscription_criteria_witness :
    (verifySession "cs_w_ach" (fun _ => .found achUnpaidActiveSession)).isSuccess = true ∧
      (verifySession "cs_w_ach" (fun _ => .found achUnpaidActiveSession)).verificationMethodOf =
        some "ach_subscription" :=
  (verify_ach_subscription_criteria "cs_w_ach" _ achUnpaidActiveSession
    { id := "sub_ach_2", status := "active", items := [sampleItem] }
    (by decide) rfl rfl rfl (by decide)).1 (by decide) (by decide)

/-- C1 counterexample: a completed bank-transfer session whose
subscription is active (and unpaid, as the claim allows) is still
rejected when the subscription has no line items, so success is not
equivalent to the subscription-status test alone. -/
theorem verify_ach_active_empty_items_counterexample :
    (detectPaymentMethod achEmptyItemsSession).map PaymentMethodObj.type =
      some "us_bank_account" ∧
    achEmptyItemsSession.status = some "complete" ∧
    achEmptyItemsSession.subscription.map SubscriptionObj.status = some "active" ∧
    achEmptyItemsSession.payment_status = "unpaid" ∧
    verifySession "cs_cex_ach" (fun _ => .found achEmptyItemsSession) =
      .failure 400 "No subscription items found" none := by decide

/-- C2 amended: on a completed card session, verification succeeds
exactly when the payment status of the session is "paid" AND the
subscription carries at least one line item; any other payment status
is rejected with HTTP 400 even for an active subscription. -/
theorem verify_card_payment_criteria (sid : String)
    (retrieve : String → SessionRetrieval) (session : CheckoutSessionObj)
    (subscription : SubscriptionObj)
    (hsid : strStartsWith sid "cs_" = true)
    (hret : retrieve sid = .found session)
    (hcomplete : session.status = some "complete")
    (hsub : session.subscription = some subscription)
    (hcard : (detectPaymentMethod session).map PaymentMethodObj.type = some "card") :
    (session.payment_status = "paid" → subscription.items ≠ [] →
      (verifySession sid retrieve).isSuccess = true ∧
        (verifySession sid retrieve).verificationMethodOf = some "card_payment") ∧
    (session.payment_status ≠ "paid" →
      verifySession sid retrieve =
        .failure 400 "Payment not completed"
          (some ("Payment status: " ++ session.payment_status))) := by
  rw [verifySession_found sid retrieve session hsid hret]
  constructor
  · intro hpaid hitems
    cases hitem : subscription.items with
    | nil => exact absurd hitem hitems
    | cons it rest =>
      simp [verifyRetrievedSession, finishVerification, hcomplete, hsub, hcard, hpaid, hitem,
        VerifyOutcome.isSuccess, VerifyOutcome.verificationMethodOf]
  · intro hnot
    simp [verifyRetrievedSession, hcomplete, hsub, hcard, hnot]

/-- Witness for the amended C2: a paid card session with one line item
verifies via the card_payment path. -/
theorem verify_card_payment_criteria_witness :
    (verifySession "cs_w_card" (fun _ => .found cardPaidSession)).isSuccess = true ∧
      (verifySession "cs_w_card" (fun _ => .found cardPaidSession)).verificationMethodOf =
        some "card_payment" :=
  (verify_card_payment_criteria "cs_w_card" _ cardPaidSession
    { id := "sub_card_2", status := "active", items := [sampleItem] }
    (by decide) rfl rfl rfl (by decide)).1 rfl (by decide)

/-- C2 counterexample: a completed, fully paid card session is still
rejected when its subscription has no line items, so success is not
equivalent to the paid test alone. -/
theorem verify_card_paid_empty_items_counterexample :
    (detectPaymentMethod cardEmptyItemsSession).map PaymentMethodObj.type = some "card" ∧
    cardEmptyItemsSession.status = some "complete" ∧
    cardEmptyItemsSession.payment_status = "paid" ∧
    cardEmptyItemsSession.subscription.map SubscriptionObj.status = some "active" ∧
    verifySession "cs_cex_card" (fun _ => .found cardEmptyItemsSession) =
      .failure 400 "No subscription items found" none := by decide

/-- C9: when neither intent exposes a payment-method object, the
detected type is null and the card rules apply: non-paid sessions are
rejected, and any success reports card_payment with a null
payment-method type — there is no third outcome. -/
theorem verify_no_payment_method_defaults_to_card (sid : String)
    (retrieve : String → SessionRetrieval) (session : CheckoutSessionObj)
    (subscription : SubscriptionObj)
    (hsid : strStartsWith sid "cs_" = true)
    (hret : retrieve sid = .found session)
    (hcomplete : session.status = some "complete")
    (hsub : session.subscription = some subscription)
    (hnopm : detectPaymentMethod session = none) :
    (session.payment_status ≠ "paid" →
      verifySession sid retrieve =
        .failure 400 "Payment not completed"
          (some ("Payment status: " ++ session.payment_status))) ∧
    (session.payment_status = "paid" → subscription.items ≠ [] →
      (verifySession sid retrieve).isSuccess = true) ∧
    (∀ vsub pm pmt vm, verifySession sid retrieve = .success vsub pm pmt vm →
      vm = "card_payment" ∧ pmt = none ∧ pm = none) := by
  rw [verifySession_found sid retrieve session hsid hret]
  refine ⟨fun hnot => ?_, fun hpaid hitems => ?_, fun vsub pm pmt vm hsucc => ?_⟩
  · simp [verifyRetrievedSession, hcomplete, hsub, hnopm, hnot]
  · cases hitem : subscription.items with
    | nil => exact absurd hitem hitems
    | cons it rest =>
      simp [verifyRetrievedSession, finishVerification, hcomplete, hsub, hnopm, hpaid, hitem,
        VerifyOutcome.isSuccess]
  · simp [verifyRetrievedSession, finishVerification, hcomplete, hsub, hnopm] at hsucc
    split at hsucc <;>
      first
      | exact VerifyOutcome.noConfusion hsucc
      | (split at hsucc <;>
          first
          | exact VerifyOutcome.noConfusion hsucc
          | (simp only [VerifyOutcome.success.injEq] at hsucc
             obtain ⟨-, hpm, hpmt, hvm⟩ := hsucc
             exact ⟨hvm.symm, hpmt.symm, hpm.symm⟩))

/-- Witness for C9: a paid session whose payment intent stayed an
unexpanded id verifies through the card path. -/
theorem verify_no_payment_method_defaults_to_card_witness :
    (verifySession "cs_w_nopm" (fun _ => .found noPmObjectSession)).isSuccess = true :=
  (verify_no_payment_method_defaults_to_card "cs_w_nopm" _ noPmObjectSession
    { id := "sub_nopm_1", status := "active", items := [sampleItem] }
    (by decide) rfl rfl rfl rfl).2.1 rfl (by decide)

/-- C10: a completed session whose subscription passes the
method-specific criteria but has an empty line-item list is rejected
with 400 "No subscription items found". -/
theorem verify_empty_items_fails_after_criteria (sid : String)
    (retrieve : String → SessionRetrieval) (session : CheckoutSessionObj)
    (subscription : SubscriptionObj)
    (hsid : strStartsWith sid "cs_" = true)
    (hret : retrieve sid = .found session)
    (hcomplete : session.status = some "complete")
    (hsub : session.subscription = some subscription)
    (hitems : subscription.items = [])
    (hcrit :
      ((detectPaymentMethod session).map PaymentMethodObj.type = some "us_bank_account" ∧
        subscription.status ∈ (["active", "trialing", "past_due"] : List String)) ∨
      ((detectPaymentMethod session).map PaymentMethodObj.type ≠ some "us_bank_account" ∧
        session.payment_status = "paid")) :
    verifySession sid retrieve = .failure 400 "No subscription items found" none := by
  rw [verifySession_found sid retrieve session hsid hret]
  rcases hcrit with ⟨hach, hstat⟩ | ⟨hnot, hpaid⟩
  · simp only [List.mem_cons, List.not_mem_nil, or_false] at hstat
    rcases hstat with h | h | h <;>
      simp [verifyRetrievedSession, finishVerification, hcomplete, hsub, hach, h, hitems]
  · simp [verifyRetrievedSession, finishVerification, hcomplete, hsub, hnot, hpaid, hitems]

/-- Witness for C10 at the active-but-itemless bank-transfer session. -/
theorem verify_empty_items_fails_after_criteria_witness :
    verifySession "cs_w_items" (fun _ => .found achEmptyItemsSession) =
      .failure 400 "No subscription items found" none :=
  verify_empty_items_fails_after_criteria "cs_w_items" _ achEmptyItemsSession
    { id := "sub_ach_1", status := "active", items := [] }
    (by decide) rfl rfl rfl rfl (Or.inl ⟨by decide, by decide⟩)

/-- C6: with the format, existence and ownership checks passed, the
DELETE route refuses to remove the payment method of a customer who has
an active subscription and exactly one stored payment method across the
card and bank-account types, and proceeds with the removal whenever the
customer has no active subscription. -/
theorem delete_sole_payment_method_guard (gw : PaymentGateway)
    (body : RemovePaymentMethodRequest) (customer : StripeCustomer)
    (paymentMethod : StripePaymentMethod)
    (hcid : validateCustomerId body.customer_id = true)
    (hpid : validatePaymentMethodId body.payment_method_id = true)
    (hcust : gw.retrieveCustomer body.customer_id = some customer)
    (hdel : customer.deleted = false)
    (hpm : gw.retrievePaymentMethod body.payment_method_id = some paymentMethod)
    (hown : paymentMethod.customer = some body.customer_id) :
    ((gw.listActiveSubscriptionIds body.customer_id).length > 0 →
      (gw.listCardIds body.customer_id).length + (gw.listBankIds body.customer_id).length = 1 →
      deletePaymentMethod gw body =
        .failure 400
          "Cannot remove the only payment method for a customer with active subscriptions") ∧
    (gw.listActiveSubscriptionIds body.customer_id = [] →
      deletePaymentMethod gw body =
        .removed body.payment_method_id body.customer_id
          (decide (customer.default_payment_method = some body.payment_method_id))) := by
  have hne1 : body.customer_id ≠ "" := by
    intro h
    rw [h] at hcid
    exact absurd hcid (by decide)
  have hne2 : body.payment_method_id ≠ "" := by
    intro h
    rw [h] at hpid
    exact absurd hpid (by decide)
  constructor
  · intro hsubs hone
    simp [deletePaymentMethod, hne1, hne2, hcid, hpid, hcust, hdel, hpm, hown, hsubs, hone]
  · intro hempty
    simp [deletePaymentMethod, hne1, hne2, hcid, hpid, hcust, hdel, hpm, hown, hempty]

/-- Witness for C6: the sole card of a customer with no active
subscription is removed (clearing the default, since it was the
default). -/
theorem delete_sole_payment_method_guard_witness :
    deletePaymentMethod gatewayW removeBodyW = .removed "pm_w" "cus_w" true := by
  have h := (delete_sole_payment_method_guard gatewayW removeBodyW
    { deleted := false, default_payment_method := some "pm_w" }
    { id := "pm_w", type := "card", created := 1700000000, customer := some "cus_w" }
    (by decide) (by decide) rfl rfl rfl rfl).2 rfl
  simpa using h

/-- C7 counterexample: with the remote store failing and no environment
variable set, nothing is cached, so two successive calls for the same
name each make a remote round trip — two in total, not at most one. -/
theorem secrets_two_calls_two_round_trips_counterexample :
    (getParameterTwice failWorld [] "STRIPE_SECRET_KEY").2.2 = 2 ∧
    ¬ ((getParameterTwice failWorld [] "STRIPE_SECRET_KEY").2.2 ≤ 1) ∧
    (getParameterTwice failWorld [] "STRIPE_SECRET_KEY").1 = none := by decide

/-- The cache lookup after a cache write finds the written value. -/
lemma cacheLookup_cacheSet (cache : List (String × String)) (k v : String) :
    cacheLookup (cacheSet cache k v) k = some v := by
  simp [cacheLookup, cacheSet]

/-- A single getParameter call makes at most one remote round trip. -/
lemma getParameter_remote_le (world : SecretsWorld) (cache : List (String × String))
    (name : String) : (getParameter world cache name).2.2 ≤ 1 := by
  simp only [getParameter]
  split
  · simp
  · split
    · simp
    · split
      · simp
      · split
        · split <;> simp
        · simp

/-- A successful resolution leaves the (nonempty) value in the cache. -/
lemma getParameter_some_lookup (world : SecretsWorld)
    (cache c1 : List (String × String)) (name v : String) (n1 : Nat)
    (hgp : getParameter world cache name = (some v, c1, n1)) :
    cacheLookup c1 name = some v ∧ v ≠ "" := by
  simp only [getParameter] at hgp
  split at hgp
  · next hc =>
    simp only [Prod.mk.injEq] at hgp
    obtain ⟨hv, hcache, -⟩ := hgp
    subst hcache
    rw [hv] at hc
    refine ⟨hv, ?_⟩
    simpa [truthyOpt] using hc
  · split at hgp
    · next henv =>
      simp only [Prod.mk.injEq] at hgp
      obtain ⟨hv, hcache, -⟩ := hgp
      cases hv
      subst hcache
      exact ⟨cacheLookup_cacheSet cache name _, by simpa using henv⟩
    · split at hgp
      · exact absurd hgp (by simp)
      · split at hgp
        · split at hgp
          · next hval =>
            simp only [Prod.mk.injEq] at hgp
            obtain ⟨hv, hcache, -⟩ := hgp
            cases hv
            subst hcache
            exact ⟨cacheLookup_cacheSet cache name _, by simpa using hval⟩
          · exact absurd hgp (by simp)
        · exact absurd hgp (by simp)

/-- A cache hit on a nonempty value returns it with no remote call and
no cache change. -/
lemma getParameter_cache_hit (world : SecretsWorld) (c1 : List (String × String))
    (name v : String) (hl : cacheLookup c1 name = some v) (hv : v ≠ "") :
    getParameter world c1 name = (some v, c1, 0) := by
  simp [getParameter, hl, truthyOpt, hv]

/-- C7 amended: whenever the first call successfully resolves a value,
that value is in the cache afterwards and the second call returns it
with zero remote round trips, so the pair of calls makes at most one
remote round trip (a single call never makes more than one); when the
first call fails to resolve, nothing is cached and the second call
contacts the remote store again. -/
theorem secrets_cached_second_call (world : SecretsWorld)
    (cache c1 : List (String × String)) (name v : String) (n1 : Nat)
    (hgp : getParameter world cache name = (some v, c1, n1)) :
    getParameter world c1 name = (some v, c1, 0) ∧ n1 ≤ 1 ∧
      (getParameterTwice world cache name).2.2 = n1 := by
  obtain ⟨hl, hv⟩ := getParameter_some_lookup world cache c1 name v n1 hgp
  have hs := getParameter_cache_hit world c1 name v hl hv
  have hn : n1 ≤ 1 := by
    have h1 := getParameter_remote_le world cache name
    rw [hgp] at h1
    exact h1
  exact ⟨hs, hn, by simp [getParameterTwice, hgp, hs]⟩

/-- Witness for the amended C7: a value fetched from the remote store
is served from the cache on the second call. -/
theorem secrets_cached_second_call_witness :
    getParameter okWorld [("STRIPE_SECRET_KEY", "sk_test_123")] "STRIPE_SECRET_KEY" =
      (some "sk_test_123", [("STRIPE_SECRET_KEY", "sk_test_123")], 0) ∧ (1 : Nat) ≤ 1 ∧
      (getParameterTwice okWorld [] "STRIPE_SECRET_KEY").2.2 = 1 :=
  secrets_cached_second_call okWorld [] [("STRIPE_SECRET_KEY", "sk_test_123")]
    "STRIPE_SECRET_KEY" "sk_test_123" 1 (by decide)

/-- The us_bank_account field of a transformed payment method. -/
lemma transform_us_bank_account_eq (pm : StripePaymentMethod) (d : Option String) :
    (transformPaymentMethod pm d).us_bank_account =
      if pm.type = "us_bank_account" then
        pm.us_bank_account.map (fun b =>
          { account_holder_type := jsOr b.account_holder_type "individual"
            account_type := jsOr b.account_type "checking"
            bank_name := jsOr b.bank_name ""
            last4 := jsOr b.last4 ""
            routing_number := jsOr b.routing_number ""
            verification_status := mapVerificationStatus "verified" })
      else none := by
  cases hba : pm.us_bank_account <;> cases hcard : pm.card <;>
    by_cases ht : pm.type = "us_bank_account" <;>
    simp [transformPaymentMethod, hba, hcard, ht] <;>
    (try split) <;> simp

/-- C8: in the list response, every bank-account payment method is
reported with verification_status "verified", independent of any of the
stored bank-account data, because the status map is applied to the
hard-coded literal "verified". -/
theorem payment_methods_bank_always_verified (pms : List StripePaymentMethod)
    (defaultId : Option String) (r : PaymentMethodResponse)
    (hr : r ∈ transformPaymentMethodList pms defaultId)
    (b : BankAccountResponse) (hb : r.us_bank_account = some b) :
    b.verification_status = "verified" := by
  obtain ⟨pm, hpm, rfl⟩ := List.mem_map.mp hr
  rw [transform_us_bank_account_eq] at hb
  split at hb
  · cases hba : pm.us_bank_account with
    | none =>
      rw [hba] at hb
      exact Option.noConfusion hb
    | some bd =>
      rw [hba] at hb
      simp only [Option.map_some'] at hb
      obtain rfl : _ = b := Option.some.inj hb
      rfl
  · exact Option.noConfusion hb

/-- Witness for C8 at a concrete stored bank account. -/
theorem payment_methods_bank_always_verified_witness :
    bankRespW.verification_status = "verified" :=
  payment_methods_bank_always_verified [bankPmW] none
    (transformPaymentMethod bankPmW none) (by simp [transformPaymentMethodList])
    bankRespW (by decide)

end EzMed
